import Mathlib

/-!
Verification of the SafeRoom backend service (src/backend/mqtt_to_mongo.py):
an MQTT-to-MongoDB bridge (the ingest listener `on_message`) together with a
Flask read API (`get_sensors`, `get_latest_sensor`, `get_alerts`,
`get_status`, `get_stats`).

Modelling conventions of the shallow embedding:
* Instants (Python `datetime`) are integers counting seconds; `timedelta
  (hours = h)` is `h * 3600` seconds.
* A decoded JSON document is an association list from string keys to scalar
  `Value`s; `json.loads` failure (or a payload that is not a key-value
  document) is modelled as a `none` payload, and the `try/except` swallowing
  every decode or insert exception makes `on_message` a total function that
  returns the store unchanged on such messages.
* MongoDB comparisons are type-bracketed: the query
  `{timestamp: {$gte: since}}` with a date bound matches exactly the
  documents whose `timestamp` field holds a date, which `matchesWindow`
  reflects.  In a descending sort on `timestamp`, any JSON-decodable value
  (number, string, boolean, null) orders strictly below every BSON date, so
  the sort key is `WithBot Int` with non-date documents at the bottom.
* `pymongo`'s `cursor.limit(n)`: `n = 0` means no limit, a negative `n`
  caps the result at `|n|` documents; `mongoLimit` reflects both.
* Python's `round(x, 1)` rounds to the nearest tenth with ties to even
  (`roundHalfEven` on rationals); numeric JSON values are modelled as
  rationals.
* Route handlers that can raise (the `.isoformat()` conversion on a
  non-date or missing timestamp, `round(None, 1)` on an empty aggregate
  field) return `Option`, with `none` standing for the uncaught exception.
-/

namespace SafeRoom

/-- A scalar BSON/JSON value as it appears in this service: numbers, strings,
booleans, nulls from `json.loads`, and server-side `datetime` stamps. -/
inductive Value where
  | num (q : ℚ)
  | str (s : String)
  | bool (b : Bool)
  | null
  | dt (t : ℤ)
deriving DecidableEq

/-- A document: an association list of fields, as produced by `json.loads`
on a JSON object (first binding wins on lookup). -/
abbrev Doc := List (String × Value)

/-- Field lookup in a document. -/
def getKey (d : Doc) (k : String) : Option Value :=
  (d.find? (fun p => p.1 = k)).map (fun p => p.2)

/-- Python dict assignment `d[k] = v`: the key ends up bound exactly once. -/
def setKey (d : Doc) (k : String) (v : Value) : Doc :=
  (k, v) :: d.filter (fun p => p.1 ≠ k)

/-- Number of bindings of key `k` in the document. -/
def countKey (d : Doc) (k : String) : ℕ :=
  (d.filter (fun p => p.1 = k)).length

/-- The three MongoDB collections of the service. -/
structure Store where
  sensor_readings : List Doc
  status_logs : List Doc
  alerts : List Doc
deriving DecidableEq

def Store.empty : Store := ⟨[], [], []⟩

/-- MQTT topic `room/sensors`. -/
def TOPIC_SENSORS : String := "room/sensors"

/-- MQTT topic `room/status`. -/
def TOPIC_STATUS : String := "room/status"

/-- MQTT topic `room/alert`. -/
def TOPIC_ALERT : String := "room/alert"

/-- An inbound MQTT message: its topic and the outcome of decoding its
payload (`none` when `json.loads` raises or the payload is not a key-value
document, so that the subsequent `payload['timestamp'] = ...` raises). -/
structure Msg where
  topic : String
  payload : Option Doc

/-- `payload['timestamp'] = datetime.utcnow()`: stamp the decoded payload
with the server-side receipt time, replacing any client-supplied binding. -/
def stampPayload (now : ℤ) (p : Doc) : Doc :=
  setKey p "timestamp" (Value.dt now)

/-- The ingest listener `on_message`: decode, stamp with receipt time, route
by topic into exactly one collection via `insert_one`.  The surrounding
`try/except` catches every exception, so the handler is a total function
and a failing message leaves the store unchanged. -/
def on_message (s : Store) (now : ℤ) (m : Msg) : Store :=
  match m.payload with
  | none => s
  | some p =>
    let doc := stampPayload now p
    if m.topic = TOPIC_SENSORS then
      { s with sensor_readings := s.sensor_readings ++ [doc] }
    else if m.topic = TOPIC_STATUS then
      { s with status_logs := s.status_logs ++ [doc] }
    else if m.topic = TOPIC_ALERT then
      { s with alerts := s.alerts ++ [doc] }
    else s

/-- The store obtained by running the ingest listener alone on a sequence of
timestamped inbound messages, starting from empty collections. -/
def reach (msgs : List (ℤ × Msg)) : Store :=
  msgs.foldl (fun s tm => on_message s tm.1 tm.2) Store.empty

/-! ### Query-side primitives -/

/-- `timedelta(hours = hours)` in seconds: `since = now - hours * 3600`. -/
def sinceOf (now hours : ℤ) : ℤ := now - hours * 3600

/-- The `timestamp` field of a document, when it holds a date. -/
def tsOf (d : Doc) : Option ℤ :=
  match getKey d "timestamp" with
  | some (Value.dt t) => some t
  | _ => none

/-- The Mongo filter `{timestamp: {$gte: since}}` with a date bound: by BSON
type bracketing it matches exactly the documents whose `timestamp` holds a
date `≥ since`. -/
def matchesWindow (since : ℤ) (d : Doc) : Bool :=
  match tsOf d with
  | some t => decide (since ≤ t)
  | none => false

/-- Sort key for `.sort('timestamp', -1)`: dates compare by instant and every
JSON-decodable (non-date) value sorts below all dates. -/
def sortKey (d : Doc) : WithBot ℤ :=
  match tsOf d with
  | some t => (t : WithBot ℤ)
  | none => ⊥

/-- The descending-timestamp order used by `.sort('timestamp', -1)`. -/
def newestFirst (a b : Doc) : Prop := sortKey b ≤ sortKey a

instance : DecidableRel newestFirst :=
  fun a b => inferInstanceAs (Decidable (sortKey b ≤ sortKey a))

instance : IsTotal Doc newestFirst := ⟨fun a b => le_total (sortKey b) (sortKey a)⟩

instance : IsTrans Doc newestFirst := ⟨fun _ _ _ hab hbc => le_trans hbc hab⟩

/-- `.sort('timestamp', -1)`: the collection ordered newest-first. -/
def sortNewestFirst (xs : List Doc) : List Doc :=
  xs.insertionSort newestFirst

/-- `pymongo`'s `cursor.limit`: `0` disables the limit, otherwise at most
`|limit|` documents are returned. -/
def mongoLimit (limit : ℤ) (xs : List Doc) : List Doc :=
  if limit = 0 then xs else xs.take limit.natAbs

/-- Textual rendering of an instant (`datetime.isoformat()`). -/
def isoStr (t : ℤ) : String := toString t

/-- `r['timestamp'] = r['timestamp'].isoformat()`: succeeds exactly when the
document's `timestamp` field holds a date; otherwise the route raises
(`KeyError` / `AttributeError`), modelled as `none`. -/
def isoDoc (d : Doc) : Option Doc :=
  match tsOf d with
  | some t => some (setKey d "timestamp" (Value.str (isoStr t)))
  | none => none

/-- The in-place conversion loop over a result list: the whole request fails
if any single conversion raises. -/
def isoAll : List Doc → Option (List Doc)
  | [] => some []
  | d :: ds =>
    match isoDoc d, isoAll ds with
    | some d₂, some ds₂ => some (d₂ :: ds₂)
    | _, _ => none

/-! ### The five query routes -/

/-- The window-filtered, newest-first sensor list built by
`sensor_readings.find({'timestamp': {'$gte': since}}).sort('timestamp', -1)`. -/
def sensorsWindow (s : Store) (now hours : ℤ) : List Doc :=
  sortNewestFirst (s.sensor_readings.filter (matchesWindow (sinceOf now hours)))

/-- The record list `GET /api/sensors` returns (after `.limit(limit)`,
before the per-record timestamp rendering). -/
def sensorsResponse (s : Store) (now hours limit : ℤ) : List Doc :=
  mongoLimit limit (sensorsWindow s now hours)

/-- `GET /api/sensors`: windowed, newest-first, limited sensor readings with
timestamps rendered to text (`none` models an uncaught exception). -/
def get_sensors (s : Store) (now hours limit : ℤ) : Option (List Doc) :=
  isoAll (sensorsResponse s now hours limit)

/-- The window-filtered, newest-first alert list of `GET /api/alerts`. -/
def alertsWindow (s : Store) (now hours : ℤ) : List Doc :=
  sortNewestFirst (s.alerts.filter (matchesWindow (sinceOf now hours)))

/-- The record list `GET /api/alerts` returns before timestamp rendering. -/
def alertsResponse (s : Store) (now hours limit : ℤ) : List Doc :=
  mongoLimit limit (alertsWindow s now hours)

/-- `GET /api/alerts`. -/
def get_alerts (s : Store) (now hours limit : ℤ) : Option (List Doc) :=
  isoAll (alertsResponse s now hours limit)

/-- `find_one({}, sort=[('timestamp', -1)])` followed by the timestamp
rendering, as both single-record routes perform it.  `some none` is the
`{}` response for an empty collection; the outer `none` models the
uncaught exception when the picked record has no date `timestamp`. -/
def findOneNewest (ds : List Doc) : Option (Option Doc) :=
  match (sortNewestFirst ds).head? with
  | none => some none
  | some d => (isoDoc d).map some

/-- `GET /api/sensors/latest`: the most recent sensor reading.  The route
reads no `hours` parameter at all. -/
def get_latest_sensor (s : Store) : Option (Option Doc) :=
  findOneNewest s.sensor_readings

/-- `GET /api/status`: the most recent status log, with no window either. -/
def get_status (s : Store) : Option (Option Doc) :=
  findOneNewest s.status_logs

/-! ### `GET /api/stats` -/

/-- The numeric value of field `k`, when present and numeric (MongoDB's
`$avg` and the aggregation accumulators only consume numeric values). -/
def numField (k : String) (d : Doc) : Option ℚ :=
  match getKey d k with
  | some (Value.num q) => some q
  | _ => none

/-- The Mongo filter `{timestamp: {$gte: since}, type: ty}`. -/
def typeMatches (ty : String) (d : Doc) : Bool :=
  match getKey d "type" with
  | some (Value.str s) => decide (s = ty)
  | _ => false

/-- Floor of a rational, computed on its reduced fraction. -/
def ratFloor (q : ℚ) : ℤ := q.num.fdiv q.den

/-- Python `round` to an integer: nearest, ties to even. -/
def roundHalfEven (q : ℚ) : ℤ :=
  if q - ratFloor q < 1/2 then ratFloor q
  else if 1/2 < q - ratFloor q then ratFloor q + 1
  else if 2 ∣ ratFloor q then ratFloor q else ratFloor q + 1

/-- Python `round(x, 1)`. -/
def pyRound1 (q : ℚ) : ℚ := (roundHalfEven (q * 10) : ℚ) / 10

/-- The value of field `k` as `$max` consumes it: any present, non-null
value participates, whatever its type (`$max` ignores null and missing). -/
def maxField (k : String) (d : Doc) : Option Value :=
  match getKey d k with
  | some Value.null => none
  | some v => some v
  | none => none

/-- BSON canonical type rank for the value types this service can store:
numbers sort below strings, strings below booleans, booleans below dates. -/
def bsonRank : Value → ℕ
  | Value.null => 0
  | Value.num _ => 1
  | Value.str _ => 2
  | Value.bool _ => 3
  | Value.dt _ => 4

/-- BSON comparison: distinct types compare by type rank; within one type,
numbers by value, strings by code points, `false < true`, dates by instant. -/
def bsonLe (a b : Value) : Bool :=
  match a, b with
  | Value.num x, Value.num y => decide (x ≤ y)
  | Value.str x, Value.str y => decide (x ≤ y)
  | Value.bool x, Value.bool y => !x || y
  | Value.dt x, Value.dt y => decide (x ≤ y)
  | a, b => decide (bsonRank a < bsonRank b)

/-- The larger of two values in BSON order. -/
def bsonMax (a b : Value) : Value := if bsonLe a b then b else a

/-- Folding a further value into a running `$max` accumulator. -/
def optBsonMax (o : Option Value) (v : Value) : Option Value :=
  some (match o with | none => v | some m => bsonMax m v)

/-- Accumulator of the single `$group` pass: running sum and count for
`$avg: '$temp'`, running BSON maximum for `$max: '$temp'`, running sum and
count for `$avg: '$humidity'`. -/
structure GroupAcc where
  sumT : ℚ
  cntT : ℕ
  maxT : Option Value
  sumH : ℚ
  cntH : ℕ
deriving DecidableEq

def GroupAcc.init : GroupAcc := ⟨0, 0, none, 0, 0⟩

/-- One document's contribution to the `$group` accumulators: `$avg` sums
only numeric values, `$max` folds every present non-null value in BSON
order; missing fields are ignored. -/
def groupStep (a : GroupAcc) (d : Doc) : GroupAcc :=
  let a₁ :=
    match numField "temp" d with
    | some q => { a with sumT := a.sumT + q, cntT := a.cntT + 1 }
    | none => a
  let a₂ :=
    match maxField "temp" d with
    | some v => { a₁ with maxT := optBsonMax a₁.maxT v }
    | none => a₁
  match numField "humidity" d with
  | some q => { a₂ with sumH := a₂.sumH + q, cntH := a₂.cntH + 1 }
  | none => a₂

/-- The single aggregation pass of the pipeline's `$group` stage over the
window-filtered documents. -/
def groupPass (docs : List Doc) : GroupAcc :=
  docs.foldl groupStep GroupAcc.init

/-- The aggregation result `list(sensor_readings.aggregate(pipeline))`:
empty (`none`) when no document matched, otherwise the single group with
each field `none` (BSON null) when no value fed its accumulator. -/
def aggResult (docs : List Doc) : Option (Option ℚ × Option Value × Option ℚ) :=
  if docs = [] then none
  else
    let a := groupPass docs
    some
      ((if a.cntT = 0 then none else some (a.sumT / a.cntT)),
       a.maxT,
       (if a.cntH = 0 then none else some (a.sumH / a.cntH)))

/-- Python's `round(x, 1)` applied to the value `$max` produced: a number
rounds, a boolean is an `int` subclass in Python and rounds to 0 or 1, and
any other value (string, datetime, BSON null as Python `None`) raises
`TypeError`, modelled as `none`. -/
def roundMax : Value → Option ℚ
  | Value.num m => some (pyRound1 m)
  | Value.bool b => some (if b then 1 else 0)
  | _ => none

/-- The JSON object `GET /api/stats` builds. -/
structure StatsOut where
  total_readings : ℕ
  total_alerts : ℕ
  burglar_alerts : ℕ
  fire_alerts : ℕ
  avg_temp : ℚ
  max_temp : ℚ
  avg_humidity : ℚ
deriving DecidableEq

/-- `GET /api/stats`: four `count_documents` scans plus the `$group`
pipeline.  When `agg_result` is empty every aggregate reports `0`; when it
is non-empty but an accumulator produced BSON null, `round(None, 1)` raises
(`none`). -/
def get_stats (s : Store) (now hours : ℤ) : Option StatsOut :=
  let since := sinceOf now hours
  let rs := s.sensor_readings.filter (matchesWindow since)
  let al := s.alerts.filter (matchesWindow since)
  let total_readings := rs.length
  let total_alerts := al.length
  let burglar_alerts := (al.filter (typeMatches "burglar")).length
  let fire_alerts := (al.filter (typeMatches "fire")).length
  match aggResult rs with
  | none =>
    some ⟨total_readings, total_alerts, burglar_alerts, fire_alerts, 0, 0, 0⟩
  | some (avgT, maxT, avgH) =>
    match avgT, maxT, avgH with
    | some a, some mv, some h =>
      (roundMax mv).map (fun m =>
        ⟨total_readings, total_alerts, burglar_alerts, fire_alerts,
         pyRound1 a, m, pyRound1 h⟩)
    | _, _, _ => none

/-! ### Per-field reference definitions for the statistics aggregates -/

/-- The numeric `temp` values of a list of documents, by a dedicated scan. -/
def tempsIn (docs : List Doc) : List ℚ := docs.filterMap (numField "temp")

/-- The numeric `humidity` values, by a dedicated scan. -/
def humsIn (docs : List Doc) : List ℚ := docs.filterMap (numField "humidity")

/-- The `$max`-eligible `temp` values (present and non-null, of any type),
by a dedicated scan. -/
def maxsIn (docs : List Doc) : List Value := docs.filterMap (maxField "temp")

/-- Average of a list of rationals (`none` when empty, as BSON null). -/
def listAvg (qs : List ℚ) : Option ℚ :=
  if qs = [] then none else some (qs.sum / qs.length)

/-- BSON maximum of a list of values (`none` when empty, as BSON null). -/
def listBsonMax : List Value → Option Value
  | [] => none
  | v :: vs => some (vs.foldl bsonMax v)

/-- Reference statistics, with every aggregate obtained from its own
per-field scan of the window-filtered documents: counts by separate filters,
average and maximum temperature and average humidity each from a dedicated
extraction of its field. -/
def statsRef (s : Store) (now hours : ℤ) : Option StatsOut :=
  let since := sinceOf now hours
  let rs := s.sensor_readings.filter (matchesWindow since)
  let al := s.alerts.filter (matchesWindow since)
  if rs = [] then
    some ⟨rs.length, al.length, (al.filter (typeMatches "burglar")).length,
          (al.filter (typeMatches "fire")).length, 0, 0, 0⟩
  else
    match listAvg (tempsIn rs), listBsonMax (maxsIn rs), listAvg (humsIn rs) with
    | some a, some mv, some h =>
      (roundMax mv).map (fun m =>
        ⟨rs.length, al.length, (al.filter (typeMatches "burglar")).length,
         (al.filter (typeMatches "fire")).length,
         pyRound1 a, m, pyRound1 h⟩)
    | _, _, _ => none

/-! ### Well-formedness of stored documents -/

/-- Every document of the list carries a date-valued `timestamp` field. -/
def wfDocs (ds : List Doc) : Prop := ∀ d ∈ ds, (tsOf d).isSome

instance (ds : List Doc) : Decidable (wfDocs ds) :=
  inferInstanceAs (Decidable (∀ d ∈ ds, (tsOf d).isSome))

/-- Every document of every collection carries a date-valued `timestamp`. -/
def wfStore (s : Store) : Prop :=
  wfDocs s.sensor_readings ∧ wfDocs s.status_logs ∧ wfDocs s.alerts

/-- Total timestamp rendering for documents that do carry a date
`timestamp` (on those, `isoDoc` returns exactly this). -/
def isoForce (d : Doc) : Doc :=
  match tsOf d with
  | some t => setKey d "timestamp" (Value.str (isoStr t))
  | none => d

/-! ### Concrete stores used by individual claims -/

/-- Two sensor readings sharing one receipt timestamp (two messages handled
within the same clock reading). -/
def twoTiedStore : Store :=
  ⟨[[("temp", Value.num 1), ("timestamp", Value.dt 7000)],
    [("temp", Value.num 2), ("timestamp", Value.dt 7000)]], [], []⟩

/-- Two sensor readings and two alerts, all inside a one-hour window. -/
def twoEachStore : Store :=
  ⟨[[("temp", Value.num 1), ("timestamp", Value.dt 7000)],
    [("temp", Value.num 2), ("timestamp", Value.dt 7100)]],
   [],
   [[("type", Value.str "fire"), ("timestamp", Value.dt 7000)],
    [("type", Value.str "burglar"), ("timestamp", Value.dt 7100)]]⟩

/-- One sensor reading far outside a one-hour window, plus one alert in it. -/
def staleStore : Store :=
  ⟨[[("temp", Value.num 3), ("timestamp", Value.dt 10)]],
   [],
   [[("type", Value.str "fire"), ("timestamp", Value.dt 7150)]]⟩

/-- A one-message ingest: a sensor reading with `temp = 21.35` and
`humidity = 50`. -/
def c6Msg : Msg :=
  ⟨TOPIC_SENSORS, some [("temp", Value.num (2135/100)), ("humidity", Value.num 50)]⟩

/-- A store with one full reading (temp, humidity, timestamp) in the
one-hour window at `now = 7200`. -/
def onePassStoreA : Store :=
  ⟨[[("temp", Value.num 5), ("humidity", Value.num 50), ("timestamp", Value.dt 7000)]],
   [], []⟩

/-- The same store plus one bare reading carrying only its receipt
timestamp: it is counted by `count_documents` but feeds no accumulator of
the `$group` pipeline. -/
def onePassStoreB : Store :=
  ⟨[[("temp", Value.num 5), ("humidity", Value.num 50), ("timestamp", Value.dt 7000)],
    [("timestamp", Value.dt 7100)]],
   [], []⟩

/-- A store holding one sensor reading and one status log, each stamped. -/
def oneEachStore : Store :=
  ⟨[[("temp", Value.num 5), ("timestamp", Value.dt 600)]],
   [[("door", Value.str "open"), ("timestamp", Value.dt 700)]],
   []⟩

/-! ### Helper lemmas -/

theorem getKey_setKey_self (d : Doc) (k : String) (v : Value) :
    getKey (setKey d k v) k = some v := by
  simp [getKey, setKey]

theorem countKey_setKey_self (d : Doc) (k : String) (v : Value) :
    countKey (setKey d k v) k = 1 := by
  simp only [countKey, setKey, List.filter_cons]
  rw [if_pos (by simp), List.filter_comm]
  simp

theorem tsOf_stampPayload (now : ℤ) (p : Doc) :
    tsOf (stampPayload now p) = some now := by
  simp [tsOf, stampPayload, getKey_setKey_self]

theorem sortNewestFirst_perm (xs : List Doc) : (sortNewestFirst xs).Perm xs :=
  List.perm_insertionSort newestFirst xs

theorem mem_sortNewestFirst (xs : List Doc) (d : Doc) :
    d ∈ sortNewestFirst xs ↔ d ∈ xs :=
  (sortNewestFirst_perm xs).mem_iff

theorem sortNewestFirst_sorted (xs : List Doc) :
    (sortNewestFirst xs).Pairwise newestFirst :=
  List.sorted_insertionSort newestFirst xs

theorem mongoLimit_sublist (limit : ℤ) (xs : List Doc) :
    (mongoLimit limit xs).Sublist xs := by
  unfold mongoLimit
  split
  · exact List.Sublist.refl xs
  · exact List.take_sublist _ xs

theorem matchesWindow_iff (since : ℤ) (d : Doc) :
    matchesWindow since d = true ↔ ∃ t, tsOf d = some t ∧ since ≤ t := by
  unfold matchesWindow
  cases h : tsOf d <;> simp

theorem isoAll_of_ts (l : List Doc) (h : ∀ d ∈ l, (tsOf d).isSome) :
    isoAll l = some (l.map isoForce) := by
  induction l with
  | nil => rfl
  | cons d ds ih =>
    have hd := h d (by simp)
    have hds := ih (fun x hx => h x (by simp [hx]))
    rw [Option.isSome_iff_exists] at hd
    obtain ⟨t, ht⟩ := hd
    simp [isoAll, isoDoc, isoForce, ht, hds]

theorem windowResponse_ts (ds : List Doc) (since limit : ℤ) :
    ∀ d ∈ mongoLimit limit (sortNewestFirst (ds.filter (matchesWindow since))),
      ∃ t, tsOf d = some t ∧ since ≤ t := by
  intro d hd
  have hd₂ : d ∈ sortNewestFirst (ds.filter (matchesWindow since)) :=
    (mongoLimit_sublist limit _).subset hd
  rw [mem_sortNewestFirst, List.mem_filter] at hd₂
  exact (matchesWindow_iff _ d).mp hd₂.2

theorem get_sensors_isSome (s : Store) (now hours limit : ℤ) :
    get_sensors s now hours limit
      = some ((sensorsResponse s now hours limit).map isoForce) :=
  isoAll_of_ts _ (fun d hd => by
    obtain ⟨t, ht, _⟩ := windowResponse_ts s.sensor_readings _ limit d hd
    simp [ht])

theorem get_alerts_isSome (s : Store) (now hours limit : ℤ) :
    get_alerts s now hours limit
      = some ((alertsResponse s now hours limit).map isoForce) :=
  isoAll_of_ts _ (fun d hd => by
    obtain ⟨t, ht, _⟩ := windowResponse_ts s.alerts _ limit d hd
    simp [ht])

theorem head_sortNewestFirst (ds : List Doc) (hne : ds ≠ []) :
    ∃ d, (sortNewestFirst ds).head? = some d ∧ d ∈ ds ∧
      ∀ e ∈ ds, sortKey e ≤ sortKey d := by
  have hp := sortNewestFirst_perm ds
  cases hs : sortNewestFirst ds with
  | nil =>
    rw [hs] at hp
    exact absurd (hp.symm.eq_nil) hne
  | cons d tl =>
    refine ⟨d, rfl, ?_, ?_⟩
    · rw [← mem_sortNewestFirst, hs]; simp
    · intro e he
      rw [← mem_sortNewestFirst, hs] at he
      have hsort := sortNewestFirst_sorted ds
      rw [hs, List.pairwise_cons] at hsort
      rcases List.mem_cons.mp he with rfl | htl
      · exact le_refl _
      · exact hsort.1 e htl

/-! ### Claim theorems -/

/-- C3: every well-formed inbound message is persisted with exactly one
`timestamp` binding, holding the server-side receipt time; any
client-supplied `timestamp` value is replaced, and the stamped document is
the one appended to the routed collection. -/
theorem ingest_stamps_single_receipt_timestamp (s : Store) (now : ℤ) (m : Msg)
    (p : Doc) (hp : m.payload = some p)
    (ht : m.topic = TOPIC_SENSORS ∨ m.topic = TOPIC_STATUS ∨ m.topic = TOPIC_ALERT) :
    countKey (stampPayload now p) "timestamp" = 1 ∧
    getKey (stampPayload now p) "timestamp" = some (Value.dt now) ∧
    ((on_message s now m).sensor_readings = s.sensor_readings ++ [stampPayload now p] ∨
     (on_message s now m).status_logs = s.status_logs ++ [stampPayload now p] ∨
     (on_message s now m).alerts = s.alerts ++ [stampPayload now p]) := by
  refine ⟨countKey_setKey_self p "timestamp" (Value.dt now),
          getKey_setKey_self p "timestamp" (Value.dt now), ?_⟩
  rcases ht with h | h | h
  · exact Or.inl (by simp [on_message, hp, h])
  · refine Or.inr (Or.inl ?_)
    rw [on_message, hp]
    simp only
    rw [if_neg (by rw [h]; decide), if_pos h]
  · refine Or.inr (Or.inr ?_)
    rw [on_message, hp]
    simp only
    rw [if_neg (by rw [h]; decide), if_neg (by rw [h]; decide), if_pos h]

/-- C3 witness: a sensor message whose payload already carries a client
`timestamp`, stamped at receipt time 42. -/
theorem ingest_stamps_single_receipt_timestamp_spot :
    countKey (stampPayload 42 [("timestamp", Value.dt 7), ("temp", Value.num 1)])
      "timestamp" = 1 ∧
    getKey (stampPayload 42 [("timestamp", Value.dt 7), ("temp", Value.num 1)])
      "timestamp" = some (Value.dt 42) ∧
    ((on_message Store.empty 42
        ⟨TOPIC_SENSORS, some [("timestamp", Value.dt 7), ("temp", Value.num 1)]⟩).sensor_readings
      = Store.empty.sensor_readings ++
          [stampPayload 42 [("timestamp", Value.dt 7), ("temp", Value.num 1)]] ∨
     (on_message Store.empty 42
        ⟨TOPIC_SENSORS, some [("timestamp", Value.dt 7), ("temp", Value.num 1)]⟩).status_logs
      = Store.empty.status_logs ++
          [stampPayload 42 [("timestamp", Value.dt 7), ("temp", Value.num 1)]] ∨
     (on_message Store.empty 42
        ⟨TOPIC_SENSORS, some [("timestamp", Value.dt 7), ("temp", Value.num 1)]⟩).alerts
      = Store.empty.alerts ++
          [stampPayload 42 [("timestamp", Value.dt 7), ("temp", Value.num 1)]]) :=
  ingest_stamps_single_receipt_timestamp Store.empty 42
    ⟨TOPIC_SENSORS, some [("timestamp", Value.dt 7), ("temp", Value.num 1)]⟩
    [("timestamp", Value.dt 7), ("temp", Value.num 1)] rfl (Or.inl rfl)

/-- C4: a malformed message (decode raises, caught by the handler) leaves
every collection unchanged and the handler returns normally; a subsequent
well-formed message is ingested exactly as it would have been. -/
theorem malformed_message_is_dropped (s : Store) (tBad tGood : ℤ) (bad good : Msg)
    (p : Doc) (hb : bad.payload = none) (hg : good.payload = some p)
    (ht : good.topic = TOPIC_SENSORS) :
    on_message s tBad bad = s ∧
    (on_message (on_message s tBad bad) tGood good).sensor_readings
      = s.sensor_readings ++ [stampPayload tGood p] := by
  have h1 : on_message s tBad bad = s := by rw [on_message, hb]
  exact ⟨h1, by rw [h1]; simp [on_message, hg, ht]⟩

/-- C4 witness: a malformed message then a well-formed sensor message, on
the empty store. -/
theorem malformed_message_is_dropped_spot :
    on_message Store.empty 5 ⟨TOPIC_SENSORS, none⟩ = Store.empty ∧
    (on_message (on_message Store.empty 5 ⟨TOPIC_SENSORS, none⟩) 6
        ⟨TOPIC_SENSORS, some [("temp", Value.num 20)]⟩).sensor_readings
      = Store.empty.sensor_readings ++ [stampPayload 6 [("temp", Value.num 20)]] :=
  malformed_message_is_dropped Store.empty 5 6 ⟨TOPIC_SENSORS, none⟩
    ⟨TOPIC_SENSORS, some [("temp", Value.num 20)]⟩
    [("temp", Value.num 20)] rfl rfl rfl

/-- C5: a well-formed message is routed by its topic to exactly one of the
three collections, which receives exactly one appended record (the stamped
payload, inserted unconditionally: no deduplication, no merge); the record
syntax shows the other two collections untouched. -/
theorem routing_inserts_exactly_one_record (s : Store) (now : ℤ) (m : Msg)
    (p : Doc) (hp : m.payload = some p) :
    (m.topic = TOPIC_SENSORS →
      on_message s now m =
        { s with sensor_readings := s.sensor_readings ++ [stampPayload now p] }) ∧
    (m.topic = TOPIC_STATUS →
      on_message s now m =
        { s with status_logs := s.status_logs ++ [stampPayload now p] }) ∧
    (m.topic = TOPIC_ALERT →
      on_message s now m =
        { s with alerts := s.alerts ++ [stampPayload now p] }) := by
  refine ⟨fun h => by simp [on_message, hp, h], fun h => ?_, fun h => ?_⟩
  · rw [on_message, hp]
    simp only
    rw [if_neg (by rw [h]; decide), if_pos h]
  · rw [on_message, hp]
    simp only
    rw [if_neg (by rw [h]; decide), if_neg (by rw [h]; decide), if_pos h]

/-- C5 witness: an alert message appended to the alerts collection of a
store that already holds an identical alert (inserted again: no dedup). -/
theorem routing_inserts_exactly_one_record_spot :
    (TOPIC_ALERT = TOPIC_SENSORS →
      on_message ⟨[], [], [stampPayload 9 [("type", Value.str "fire")]]⟩ 9
          ⟨TOPIC_ALERT, some [("type", Value.str "fire")]⟩ =
        { (⟨[], [], [stampPayload 9 [("type", Value.str "fire")]]⟩ : Store) with
            sensor_readings := [] ++ [stampPayload 9 [("type", Value.str "fire")]] }) ∧
    (TOPIC_ALERT = TOPIC_STATUS →
      on_message ⟨[], [], [stampPayload 9 [("type", Value.str "fire")]]⟩ 9
          ⟨TOPIC_ALERT, some [("type", Value.str "fire")]⟩ =
        { (⟨[], [], [stampPayload 9 [("type", Value.str "fire")]]⟩ : Store) with
            status_logs := [] ++ [stampPayload 9 [("type", Value.str "fire")]] }) ∧
    (TOPIC_ALERT = TOPIC_ALERT →
      on_message ⟨[], [], [stampPayload 9 [("type", Value.str "fire")]]⟩ 9
          ⟨TOPIC_ALERT, some [("type", Value.str "fire")]⟩ =
        { (⟨[], [], [stampPayload 9 [("type", Value.str "fire")]]⟩ : Store) with
            alerts := [stampPayload 9 [("type", Value.str "fire")],
                       stampPayload 9 [("type", Value.str "fire")]] }) :=
  routing_inserts_exactly_one_record
    ⟨[], [], [stampPayload 9 [("type", Value.str "fire")]]⟩ 9
    ⟨TOPIC_ALERT, some [("type", Value.str "fire")]⟩
    [("type", Value.str "fire")] rfl

/-- C1 counterexample: with two readings sharing one receipt timestamp and
`limit = 0` (which pymongo treats as no limit), `GET /api/sensors` returns
2 records — more than `limit` — and the result is not strictly descending
in timestamp, refuting the claim for arbitrary integer `limit` and
arbitrary stores. -/
theorem sensors_window_claim_fails_at_limit_zero_and_ties :
    (get_sensors twoTiedStore 7200 1 0).map List.length = some 2 ∧
    ¬ (sensorsResponse twoTiedStore 7200 1 0).length ≤ 0 ∧
    ¬ List.Pairwise (fun a b => sortKey b < sortKey a)
        (sensorsResponse twoTiedStore 7200 1 0) := by
  refine ⟨by with_unfolding_all decide, by decide, by decide⟩

/-- C1 amended: for every store and window and every `limit ≥ 1`,
`GET /api/sensors` returns at most `limit` records, every returned record
carries a date timestamp `≥ now - hours·3600`, the list is newest-first
(non-increasing timestamps; ties between equal receipt times are adjacent),
and the route renders every timestamp to text without error. -/
theorem sensors_window_limit_sorted (s : Store) (now hours limit : ℤ)
    (hl : 1 ≤ limit) :
    ((sensorsResponse s now hours limit).length : ℤ) ≤ limit ∧
    (∀ d ∈ sensorsResponse s now hours limit,
       ∃ t, tsOf d = some t ∧ sinceOf now hours ≤ t) ∧
    List.Pairwise newestFirst (sensorsResponse s now hours limit) ∧
    get_sensors s now hours limit
      = some ((sensorsResponse s now hours limit).map isoForce) := by
  have hmem : ∀ d ∈ sensorsResponse s now hours limit,
      ∃ t, tsOf d = some t ∧ sinceOf now hours ≤ t := by
    intro d hd
    have hd₂ : d ∈ sensorsWindow s now hours :=
      (mongoLimit_sublist limit _).subset hd
    rw [sensorsWindow, mem_sortNewestFirst, List.mem_filter] at hd₂
    exact (matchesWindow_iff _ d).mp hd₂.2
  refine ⟨?_, hmem, ?_, ?_⟩
  · have hne : limit ≠ 0 := by omega
    rw [sensorsResponse, mongoLimit, if_neg hne]
    calc ((List.take limit.natAbs (sensorsWindow s now hours)).length : ℤ)
        ≤ (limit.natAbs : ℤ) := by exact_mod_cast List.length_take_le _ _
      _ = limit := Int.natAbs_of_nonneg (by omega)
  · exact (sortNewestFirst_sorted _).sublist (mongoLimit_sublist limit _)
  · exact isoAll_of_ts _ (fun d hd => by
      obtain ⟨t, ht, _⟩ := hmem d hd
      simp [ht])

/-- C1 amended, witness: two readings at distinct times, `limit = 1`. -/
theorem sensors_window_limit_sorted_spot :
    (1:ℤ) ≤ 1 ∧
    (((sensorsResponse twoEachStore 7200 1 1).length : ℤ) ≤ 1 ∧
     (∀ d ∈ sensorsResponse twoEachStore 7200 1 1,
        ∃ t, tsOf d = some t ∧ sinceOf 7200 1 ≤ t) ∧
     List.Pairwise newestFirst (sensorsResponse twoEachStore 7200 1 1) ∧
     get_sensors twoEachStore 7200 1 1
       = some ((sensorsResponse twoEachStore 7200 1 1).map isoForce)) :=
  ⟨by decide, sensors_window_limit_sorted twoEachStore 7200 1 1 (by decide)⟩

/-- C9: `limit = 0` disables truncation on `GET /api/sensors` and
`GET /api/alerts` — the full window is returned — and on a store with two
qualifying readings and two qualifying alerts both routes return more than
`limit = 0` records. -/
theorem limit_zero_disables_truncation :
    (∀ (s : Store) (now hours : ℤ),
       sensorsResponse s now hours 0 = sensorsWindow s now hours ∧
       alertsResponse s now hours 0 = alertsWindow s now hours) ∧
    0 < (sensorsResponse twoEachStore 7200 1 0).length ∧
    0 < (alertsResponse twoEachStore 7200 1 0).length := by
  refine ⟨fun s now hours => ⟨rfl, rfl⟩, by decide, by decide⟩

/-- C2: when no sensor reading has a timestamp inside the window, the
aggregation result is empty and `GET /api/stats` reports all three
temperature/humidity aggregates as 0 and `total_readings = 0`, without
error (the alert counts are whatever the window holds). -/
theorem stats_empty_window_reports_zero (s : Store) (now hours : ℤ)
    (h : s.sensor_readings.filter (matchesWindow (sinceOf now hours)) = []) :
    get_stats s now hours =
      some ⟨0,
        (s.alerts.filter (matchesWindow (sinceOf now hours))).length,
        ((s.alerts.filter (matchesWindow (sinceOf now hours))).filter
            (typeMatches "burglar")).length,
        ((s.alerts.filter (matchesWindow (sinceOf now hours))).filter
            (typeMatches "fire")).length,
        0, 0, 0⟩ := by
  rw [get_stats]
  simp only [h, List.length_nil]
  rw [aggResult, if_pos rfl]

/-- C2 witness: a store whose only reading is far older than the one-hour
window at `now = 7200` still answers with zero aggregates. -/
theorem stats_empty_window_reports_zero_spot :
    staleStore.sensor_readings.filter (matchesWindow (sinceOf 7200 1)) = [] ∧
    get_stats staleStore 7200 1 =
      some ⟨0,
        (staleStore.alerts.filter (matchesWindow (sinceOf 7200 1))).length,
        ((staleStore.alerts.filter (matchesWindow (sinceOf 7200 1))).filter
            (typeMatches "burglar")).length,
        ((staleStore.alerts.filter (matchesWindow (sinceOf 7200 1))).filter
            (typeMatches "fire")).length,
        0, 0, 0⟩ :=
  ⟨by decide, stats_empty_window_reports_zero staleStore 7200 1 (by decide)⟩

theorem findOneNewest_empty : findOneNewest [] = some none := rfl

theorem findOneNewest_spec (ds : List Doc) (hw : wfDocs ds) (hne : ds ≠ []) :
    ∃ d t, d ∈ ds ∧ tsOf d = some t ∧
      findOneNewest ds = some (some (setKey d "timestamp" (Value.str (isoStr t)))) ∧
      ∀ e ∈ ds, ∀ u, tsOf e = some u → u ≤ t := by
  obtain ⟨d, hh, hmem, hmax⟩ := head_sortNewestFirst ds hne
  obtain ⟨t, ht⟩ := Option.isSome_iff_exists.mp (hw d hmem)
  refine ⟨d, t, hmem, ht, ?_, ?_⟩
  · rw [findOneNewest, hh]
    simp [isoDoc, ht]
  · intro e he u hu
    have := hmax e he
    rw [sortKey, sortKey, ht, hu] at this
    simpa using this

theorem wfDocs_append_stamp (l : List Doc) (now : ℤ) (p : Doc) (h : wfDocs l) :
    wfDocs (l ++ [stampPayload now p]) := by
  intro d hd
  rcases List.mem_append.mp hd with h₁ | h₁
  · exact h d h₁
  · rw [List.mem_singleton.mp h₁, tsOf_stampPayload]
    rfl

theorem on_message_wf (s : Store) (now : ℤ) (m : Msg) (h : wfStore s) :
    wfStore (on_message s now m) := by
  obtain ⟨h₁, h₂, h₃⟩ := h
  rw [on_message]
  cases hp : m.payload with
  | none => exact ⟨h₁, h₂, h₃⟩
  | some p =>
    simp only
    split_ifs <;>
      exact ⟨by first | exact wfDocs_append_stamp _ now p h₁ | exact h₁,
             by first | exact wfDocs_append_stamp _ now p h₂ | exact h₂,
             by first | exact wfDocs_append_stamp _ now p h₃ | exact h₃⟩

theorem reach_wf_aux (msgs : List (ℤ × Msg)) :
    ∀ s : Store, wfStore s →
      wfStore (msgs.foldl (fun s tm => on_message s tm.1 tm.2) s) := by
  induction msgs with
  | nil => exact fun s h => h
  | cons tm rest ih =>
    intro s h
    exact ih _ (on_message_wf s tm.1 tm.2 h)

theorem findOneNewest_isSome (ds : List Doc) (hw : wfDocs ds) :
    (findOneNewest ds).isSome := by
  by_cases hne : ds = []
  · rw [hne, findOneNewest_empty]; rfl
  · obtain ⟨d, t, _, _, heq, _⟩ := findOneNewest_spec ds hw hne
    rw [heq]; rfl

/-- C8: on any store in which every stored record carries a date timestamp
(the data-model invariant), `GET /api/sensors/latest` returns the sensor
reading with the greatest timestamp — its definition consults no `hours`
window — and `GET /api/status` likewise for status logs; each returns the
empty object (`some none`) when its collection is empty. -/
theorem latest_routes_return_greatest_timestamp (s : Store)
    (hsr : wfDocs s.sensor_readings) (hsl : wfDocs s.status_logs) :
    (s.sensor_readings = [] → get_latest_sensor s = some none) ∧
    (s.sensor_readings ≠ [] → ∃ d t, d ∈ s.sensor_readings ∧ tsOf d = some t ∧
       get_latest_sensor s
         = some (some (setKey d "timestamp" (Value.str (isoStr t)))) ∧
       ∀ e ∈ s.sensor_readings, ∀ u, tsOf e = some u → u ≤ t) ∧
    (s.status_logs = [] → get_status s = some none) ∧
    (s.status_logs ≠ [] → ∃ d t, d ∈ s.status_logs ∧ tsOf d = some t ∧
       get_status s
         = some (some (setKey d "timestamp" (Value.str (isoStr t)))) ∧
       ∀ e ∈ s.status_logs, ∀ u, tsOf e = some u → u ≤ t) := by
  refine ⟨fun h => ?_, fun h => findOneNewest_spec _ hsr h,
          fun h => ?_, fun h => findOneNewest_spec _ hsl h⟩
  · rw [get_latest_sensor, h, findOneNewest_empty]
  · rw [get_status, h, findOneNewest_empty]

/-- C8 witness: one reading and one status log. -/
theorem latest_routes_return_greatest_timestamp_spot :
    (oneEachStore.sensor_readings = [] → get_latest_sensor oneEachStore = some none) ∧
    (oneEachStore.sensor_readings ≠ [] →
       ∃ d t, d ∈ oneEachStore.sensor_readings ∧ tsOf d = some t ∧
         get_latest_sensor oneEachStore
           = some (some (setKey d "timestamp" (Value.str (isoStr t)))) ∧
         ∀ e ∈ oneEachStore.sensor_readings, ∀ u, tsOf e = some u → u ≤ t) ∧
    (oneEachStore.status_logs = [] → get_status oneEachStore = some none) ∧
    (oneEachStore.status_logs ≠ [] →
       ∃ d t, d ∈ oneEachStore.status_logs ∧ tsOf d = some t ∧
         get_status oneEachStore
           = some (some (setKey d "timestamp" (Value.str (isoStr t)))) ∧
         ∀ e ∈ oneEachStore.status_logs, ∀ u, tsOf e = some u → u ≤ t) :=
  latest_routes_return_greatest_timestamp oneEachStore (by decide) (by decide)

/-- C10: every store reachable through the ingest listener alone has a
date-valued `timestamp` in every record of all three collections, so the
timestamp-to-text conversion of each query route succeeds on it: the two
list routes render every returned record (for any window and limit) and
the two single-record routes never raise. -/
theorem reachable_stores_render_timestamps (msgs : List (ℤ × Msg)) :
    wfStore (reach msgs) ∧
    (∀ now hours limit : ℤ, (get_sensors (reach msgs) now hours limit).isSome) ∧
    (∀ now hours limit : ℤ, (get_alerts (reach msgs) now hours limit).isSome) ∧
    (get_latest_sensor (reach msgs)).isSome ∧
    (get_status (reach msgs)).isSome := by
  have hw : wfStore (reach msgs) :=
    reach_wf_aux msgs Store.empty ⟨(by decide), (by decide), (by decide)⟩
  refine ⟨hw, fun now hours limit => ?_, fun now hours limit => ?_, ?_, ?_⟩
  · rw [get_sensors_isSome]; rfl
  · rw [get_alerts_isSome]; rfl
  · exact findOneNewest_isSome _ hw.1
  · exact findOneNewest_isSome _ hw.2.1

/-- C6: ingesting a single sensor reading with `temp = 21.35` (and humidity
50) and querying `/api/stats` over a window containing only that reading
yields `avg_temp = max_temp = 21.4`: the tie at 21.35 rounds to even, and
the nearest binary double to 21.35 lies above the tie, so exact-rational
and Python float rounding agree here. -/
theorem stats_round_trip_rounds_to_21_4 :
    get_stats (on_message Store.empty 1000 c6Msg) 1000 1
      = some ⟨1, 0, 0, 0, 214/10, 214/10, 50⟩ := by
  with_unfolding_all decide

theorem foldl_optBsonMax_some (vs : List Value) :
    ∀ m : Value, vs.foldl optBsonMax (some m) = some (vs.foldl bsonMax m) := by
  induction vs with
  | nil => intro m; rfl
  | cons v vs ih =>
    intro m
    rw [List.foldl_cons, List.foldl_cons]
    exact ih (bsonMax m v)

theorem foldl_optBsonMax_none (vs : List Value) :
    vs.foldl optBsonMax none = listBsonMax vs := by
  cases vs with
  | nil => rfl
  | cons v vs =>
    rw [List.foldl_cons, listBsonMax]
    exact foldl_optBsonMax_some vs v

theorem groupPass_foldl (docs : List Doc) :
    ∀ a : GroupAcc,
      docs.foldl groupStep a =
        ⟨a.sumT + (tempsIn docs).sum, a.cntT + (tempsIn docs).length,
         (maxsIn docs).foldl optBsonMax a.maxT,
         a.sumH + (humsIn docs).sum, a.cntH + (humsIn docs).length⟩ := by
  induction docs with
  | nil => intro a; cases a; simp [tempsIn, humsIn, maxsIn]
  | cons d ds ih =>
    intro a
    rw [List.foldl_cons, ih]
    cases ht : numField "temp" d <;> cases hx : maxField "temp" d <;>
      cases hh : numField "humidity" d <;>
      cases a <;>
      simp [groupStep, ht, hx, hh, tempsIn, humsIn, maxsIn,
            List.filterMap_cons, add_assoc] <;>
      (try constructor) <;> ring

theorem aggResult_per_field (docs : List Doc) :
    aggResult docs =
      if docs = [] then none
      else some (listAvg (tempsIn docs), listBsonMax (maxsIn docs),
                 listAvg (humsIn docs)) := by
  rw [aggResult]
  by_cases h : docs = []
  · simp [h]
  · simp only [if_neg h]
    rw [groupPass, groupPass_foldl]
    simp only [GroupAcc.init, zero_add, foldl_optBsonMax_none, listAvg]
    simp [List.length_eq_zero]

/-- C7 counterexample: two stores whose window-filtered sensor readings
produce identical `$group` accumulations (the extra reading of the second
store carries only its receipt timestamp, feeding no accumulator) but whose
`/api/stats` responses report different total reading counts — so the count
aggregates are not computed from the single grouping pass over the
window-filtered set; in the code they come from four separate
`count_documents` scans. -/
theorem stats_counts_not_from_single_pass :
    groupPass (onePassStoreA.sensor_readings.filter (matchesWindow (sinceOf 7200 1)))
      = groupPass (onePassStoreB.sensor_readings.filter (matchesWindow (sinceOf 7200 1))) ∧
    (get_stats onePassStoreA 7200 1).map StatsOut.total_readings = some 1 ∧
    (get_stats onePassStoreB 7200 1).map StatsOut.total_readings = some 2 := by
  with_unfolding_all decide

/-- C7 amended: the three temperature/humidity aggregates of
`GET /api/stats` are computed by the single `$group` pipeline pass over the
window-filtered readings, the four counts by separate per-field count
scans; together the route returns exactly the values of the per-field
reference definitions, where every aggregate is obtained from its own
dedicated scan of the window-filtered documents. -/
theorem stats_single_pass_equals_per_field (s : Store) (now hours : ℤ) :
    get_stats s now hours = statsRef s now hours := by
  rw [get_stats, statsRef, aggResult_per_field]
  by_cases h : s.sensor_readings.filter (matchesWindow (sinceOf now hours)) = []
  · simp [h]
  · rw [if_neg h, if_neg h]

end SafeRoom
